import Mathlib

/-!
Verification of the SugarClock display/state engine against its
natural-language specification.

The definitions below are a shallow embedding of the firmware sources:
`glucose_engine.cpp` (display state selection, themed colors, toggle
order, auto-cycle), the HTTP client state (`record_reading`, delta and
ring-buffer history, freshness queries), `buzzer.cpp` (non-blocking beep
sequencer) and `notify_engine.cpp` (bounded notification pool).
C machine integers are modelled as `Nat`/`Int`; `millis()` timestamps are
`Nat` arguments threaded explicitly; file-scope statics become explicit
state records.
-/

namespace SugarClock

/-! ## Display states (`glucose_engine.h`, `enum DisplayState`)

The C enum has 15 enumerators with default values 0..14.  The engine can
cast raw integers into the enum (`(DisplayState)reading.force_mode`), so
states are modelled by their underlying `Nat` codes. -/

def STATE_BOOT : Nat := 0
def STATE_GLUCOSE_DISPLAY : Nat := 1
def STATE_TIME_DISPLAY : Nat := 2
def STATE_WEATHER_DISPLAY : Nat := 3
def STATE_TIMER_DISPLAY : Nat := 4
def STATE_STOPWATCH_DISPLAY : Nat := 5
def STATE_SYSMON_DISPLAY : Nat := 6
def STATE_COUNTDOWN_DISPLAY : Nat := 7
def STATE_TREND_DISPLAY : Nat := 8
def STATE_MESSAGE_DISPLAY : Nat := 9
def STATE_NOTIFY_DISPLAY : Nat := 10
def STATE_STALE_WARNING : Nat := 11
def STATE_NO_DATA : Nat := 12
def STATE_NO_WIFI : Nat := 13
def STATE_NO_CFG : Nat := 14

/-- `ULONG_MAX` on the 32-bit target (`http_time_since_last_reading`
returns it when no reading was ever received). -/
def ULONG_MAX : Nat := 4294967295

/-! ## Configuration record (`config_manager.h` / `config_manager.cpp`)

Only the fields read by the code under verification are modelled. -/

structure AppConfig where
  thresh_urgent_low : Int
  thresh_low : Int
  thresh_high : Int
  thresh_urgent_high : Int
  color_urgent_low : Nat
  color_low : Nat
  color_in_range : Nat
  color_high : Nat
  color_urgent_high : Nat
  notify_enabled : Bool
  stale_timeout_min : Nat
  auto_cycle_enabled : Bool
  auto_cycle_sec : Nat
  deriving DecidableEq, Repr

/-- The relevant defaults written by `config_set_defaults`. -/
def defaultConfig : AppConfig :=
  { thresh_urgent_low := 70
    thresh_low := 80
    thresh_high := 180
    thresh_urgent_high := 250
    color_urgent_low := 0xEA4335
    color_low := 0xFBBC04
    color_in_range := 0x34A853
    color_high := 0xFBBC04
    color_urgent_high := 0xEA4335
    notify_enabled := true
    stale_timeout_min := 20
    auto_cycle_enabled := true
    auto_cycle_sec := 10 }

/-- `display_color(uint8_t r, uint8_t g, uint8_t b)` (`display.cpp`):
`return matrix.Color(r, g, b);` — the FastLED_NeoMatrix / Adafruit_GFX
conversion of an 8-bit RGB triple to a lossy 16-bit RGB565 color,
`((r & 0xF8) << 8) | ((g & 0xFC) << 3) | (b >> 3)`.  The `% 256`
models the `uint8_t` parameter truncation. -/
def display_color (r g b : Nat) : Nat :=
  (((r % 256) &&& 0xF8) <<< 8) ||| (((g % 256) &&& 0xFC) <<< 3) ||| ((b % 256) >>> 3)

/-! ## Glucose-to-color policy (`glucose_engine.cpp`) -/

/-- `color_from_uint32` (`glucose_engine.cpp`): unpack a configured
packed-RGB color and convert it to a display color
(`display_color((c >> 16) & 0xFF, (c >> 8) & 0xFF, c & 0xFF)`). -/
def color_from_uint32 (c : Nat) : Nat :=
  display_color ((c >>> 16) &&& 255) ((c >>> 8) &&& 255) (c &&& 255)

/-- `themed_glucose_color(int mg_dl, const AppConfig& cfg)`:
selects one of the five configured theme colors from the four
configured thresholds and converts it to a display color (the body
spells out the same channel unpacking as `color_from_uint32`). -/
def themed_glucose_color (mg_dl : Int) (cfg : AppConfig) : Nat :=
  color_from_uint32
    (if mg_dl < cfg.thresh_urgent_low then cfg.color_urgent_low
     else if mg_dl < cfg.thresh_low then cfg.color_low
     else if mg_dl ≤ cfg.thresh_high then cfg.color_in_range
     else if mg_dl ≤ cfg.thresh_urgent_high then cfg.color_high
     else cfg.color_urgent_high)

/-- Glucose thresholds record (`glucose_engine.h`). -/
structure GlucoseThresholds where
  urgent_low : Int
  low : Int
  high : Int
  urgent_high : Int
  deriving DecidableEq, Repr

/-- `glucose_color(int mg_dl, const GlucoseThresholds& t)`: the fixed
(non-themed) color mapping. -/
def glucose_color (mg_dl : Int) (t : GlucoseThresholds) : Nat :=
  if mg_dl < t.urgent_low then display_color 255 0 0
  else if mg_dl < t.low then display_color 255 165 0
  else if mg_dl ≤ t.high then display_color 0 255 0
  else if mg_dl ≤ t.urgent_high then display_color 255 165 0
  else display_color 255 0 0

/-! ## Per-tick state evaluation (`evaluate_state`, `glucose_engine.cpp`)

`evaluate_state` reads file-scope statics and collaborator queries;
those inputs are gathered into one record. -/

structure EngineInput where
  now : Nat
  boot_start_ms : Nat
  wifi_connected : Bool
  has_wifi : Bool
  has_server : Bool
  notify_active : Bool
  failures : Nat
  ever_received : Bool
  last_success_ms : Nat
  state_forced : Bool
  forced_state : Nat
  reading_valid : Bool
  force_mode : Int
  message : String
  user_mode : Nat
  cfg : AppConfig
  deriving DecidableEq, Repr

/-- `http_time_since_last_reading()` (`http_client.cpp`): age of the
last successful fetch, `ULONG_MAX` when none ever succeeded. -/
def http_time_since_last_reading (inp : EngineInput) : Nat :=
  if inp.ever_received = false ∨ inp.last_success_ms = 0 then ULONG_MAX
  else inp.now - inp.last_success_ms

/-- `evaluate_state()` (`glucose_engine.cpp`): the per-tick display
state selection.  `FAILURE_STALE_COUNT = 5`, `FAILURE_NODATA_COUNT =
10`; the C `if (a) { if (b) return NO_DATA; }` without an else falls
through when `b` fails, which flattens to the conjunction below. -/
def evaluate_state (inp : EngineInput) : Nat :=
  let stale_ms : Nat := inp.cfg.stale_timeout_min * 60 * 1000
  if inp.now - inp.boot_start_ms < 2000 then STATE_BOOT
  else if inp.wifi_connected = false ∧ inp.has_wifi = true then STATE_NO_WIFI
  else if inp.has_server = false ∧ inp.has_wifi = false then STATE_NO_CFG
  else if inp.cfg.notify_enabled = true ∧ inp.notify_active = true then STATE_NOTIFY_DISPLAY
  else if (10 ≤ inp.failures ∨ inp.ever_received = false) ∧
          inp.has_server = true ∧ 5000 < inp.now - inp.boot_start_ms then STATE_NO_DATA
  else if stale_ms ≤ http_time_since_last_reading inp ∨ 5 ≤ inp.failures then STATE_STALE_WARNING
  else if inp.state_forced = true then inp.forced_state
  else if inp.reading_valid = true ∧ 0 ≤ inp.force_mode then inp.force_mode.toNat
  else if inp.reading_valid = true ∧ inp.message ≠ "" then STATE_MESSAGE_DISPLAY
  else inp.user_mode

/-! ## User navigation and auto-cycle (`glucose_engine.cpp`)

The file-scope statics `toggle_order`/`toggle_count`/`toggle_index`,
`user_mode`, `last_cycle_ms`, `last_render_ms` and the
`engine_loop`-local `last_rebuild_ms` become one record; `toggle_order`
plus `toggle_count` become a single list. -/

structure NavState where
  toggle_order : List Nat
  toggle_index : Nat
  user_mode : Nat
  last_cycle_ms : Nat
  last_render_ms : Nat
  last_rebuild_ms : Nat
  deriving DecidableEq, Repr

/-- Feature flags read by `engine_rebuild_toggle_order` (from
`AppConfig` and `sysmon_has_data()`). -/
structure ToggleFlags where
  weather_enabled : Bool
  timer_enabled : Bool
  stopwatch_enabled : Bool
  sysmon_enabled : Bool
  sysmon_has_data : Bool
  countdown_enabled : Bool
  deriving DecidableEq, Repr

/-- First index of `x` in the list, if present (the scan at the end of
`engine_rebuild_toggle_order`). -/
def toggle_find (x : Nat) : List Nat → Option Nat
  | [] => none
  | y :: ys => if y = x then some 0 else (toggle_find x ys).map (· + 1)

/-- `engine_rebuild_toggle_order()`: rebuilds the cycle list from the
feature flags and re-points `toggle_index` at the current `user_mode`
(falling back to 0 when the mode is no longer present). -/
def engine_rebuild_toggle_order (f : ToggleFlags) (s : NavState) : NavState :=
  let ord : List Nat :=
    [STATE_GLUCOSE_DISPLAY, STATE_TREND_DISPLAY, STATE_TIME_DISPLAY] ++
    (if f.weather_enabled = true then [STATE_WEATHER_DISPLAY] else []) ++
    (if f.timer_enabled = true then [STATE_TIMER_DISPLAY] else []) ++
    (if f.stopwatch_enabled = true then [STATE_STOPWATCH_DISPLAY] else []) ++
    (if f.sysmon_enabled = true ∧ f.sysmon_has_data = true then [STATE_SYSMON_DISPLAY] else []) ++
    (if f.countdown_enabled = true then [STATE_COUNTDOWN_DISPLAY] else [])
  { s with toggle_order := ord, toggle_index := (toggle_find s.user_mode ord).getD 0 }

/-- `engine_toggle_mode()`: advances the user mode, resetting the
auto-cycle timer. -/
def engine_toggle_mode (now : Nat) (s : NavState) : NavState :=
  let i := (s.toggle_index + 1) % s.toggle_order.length
  { s with toggle_index := i, user_mode := s.toggle_order.getD i 0, last_cycle_ms := now }

/-- `engine_toggle_mode_prev()`: retreats the user mode, resetting the
auto-cycle timer (`(toggle_index - 1 + toggle_count) % toggle_count`). -/
def engine_toggle_mode_prev (now : Nat) (s : NavState) : NavState :=
  let i := (s.toggle_index + s.toggle_order.length - 1) % s.toggle_order.length
  { s with toggle_index := i, user_mode := s.toggle_order.getD i 0, last_cycle_ms := now }

/-- The periodic rebuild inside `engine_loop()` (`millis() -
last_rebuild_ms > 5000`). -/
def nav_after_rebuild (now : Nat) (f : ToggleFlags) (s : NavState) : NavState :=
  if 5000 < now - s.last_rebuild_ms then
    engine_rebuild_toggle_order f { s with last_rebuild_ms := now }
  else s

/-- The auto-cycle block of `engine_loop()`: gate on the feature flag
and a multi-entry order, lazily initialize `last_cycle_ms`, advance
when the interval has elapsed.  Returns the new state and whether the
advance fired. -/
def auto_cycle_step (now : Nat) (autoEn : Bool) (autoSec : Nat)
    (s : NavState) : NavState × Bool :=
  if autoEn = true ∧ 1 < s.toggle_order.length then
    let lc := if s.last_cycle_ms = 0 then now else s.last_cycle_ms
    if autoSec * 1000 ≤ now - lc then
      let i := (s.toggle_index + 1) % s.toggle_order.length
      ({ s with toggle_index := i, user_mode := s.toggle_order.getD i 0,
                last_cycle_ms := now }, true)
    else ({ s with last_cycle_ms := lc }, false)
  else (s, false)

/-- The navigation-relevant portion of `engine_loop()`: the 100 ms
render throttle, then the 5 s toggle-order rebuild, then the
auto-cycle advance.  Returns the new state and whether the auto-cycle
fired. -/
def engine_loop_nav (now : Nat) (f : ToggleFlags) (autoEn : Bool) (autoSec : Nat)
    (s : NavState) : NavState × Bool :=
  if now - s.last_render_ms < 100 then (s, false)
  else auto_cycle_step now autoEn autoSec
    (nav_after_rebuild now f { s with last_render_ms := now })

/-- Events touching the navigation state: an `engine_loop` tick (with
the collaborator inputs it reads) or a manual toggle in either
direction. -/
inductive NavEv where
  | tick (now : Nat) (f : ToggleFlags) (autoEn : Bool) (autoSec : Nat)
  | fwd (now : Nat)
  | prev (now : Nat)
  deriving DecidableEq, Repr

def NavEv.time : NavEv → Nat
  | .tick n _ _ _ => n
  | .fwd n => n
  | .prev n => n

/-- Manual navigation events (button or remote toggle). -/
def NavEv.isManual : NavEv → Bool
  | .tick _ _ _ _ => false
  | .fwd _ => true
  | .prev _ => true

/-- One navigation event; the `Bool` reports an auto-cycle fire. -/
def navStep (s : NavState) : NavEv → NavState × Bool
  | .tick n f en sec => engine_loop_nav n f en sec s
  | .fwd n => (engine_toggle_mode n s, false)
  | .prev n => (engine_toggle_mode_prev n s, false)

/-- Event times are nondecreasing and bounded below by `c`. -/
def chron : Nat → List NavEv → Prop
  | _, [] => True
  | c, e :: rest => c ≤ e.time ∧ chron e.time rest

/-- Safety property of a navigation trace: whenever a tick fires the
auto-cycle, the interval configured at that tick has fully elapsed
since the most recent navigation event (manual toggle in either
direction, or earlier auto-cycle fire); `navT` carries the time of the
most recent navigation event so far. -/
def noEarlyFire (s : NavState) (navT : Option Nat) : List NavEv → Prop
  | [] => True
  | e :: rest =>
    let r := navStep s e
    (match e with
     | .tick n _ _ sec => r.2 = true → ∀ t ∈ navT, t + sec * 1000 ≤ n
     | _ => True) ∧
    noEarlyFire r.1 (if r.2 = true ∨ e.isManual = true then some e.time else navT) rest

/-! ## Buzzer sequencer (`buzzer.cpp`) -/

def BEEP_GAP_MS : Nat := 150

/-- Buzzer statics; `initDone` is `initialized` in the source, `duty`
is the last value written through `ledcWrite` (128 while sounding, 0
silent). -/
structure BuzzerState where
  initDone : Bool
  beeps_remaining : Int
  beep_freq : Int
  beep_duration_ms : Int
  beep_start_ms : Nat
  beep_on : Bool
  duty : Nat
  deriving DecidableEq, Repr

/-- State after `buzzer_init()`. -/
def buzzerInit : BuzzerState :=
  { initDone := true, beeps_remaining := 0, beep_freq := 2000,
    beep_duration_ms := 200, beep_start_ms := 0, beep_on := false, duty := 0 }

/-- The C cast `(unsigned long)beep_duration_ms` (32-bit wraparound). -/
def durU (d : Int) : Nat := (d % 4294967296).toNat

/-- `buzzer_beep(int count, int freq, int duration_ms)`: arms the
sequencer and starts the first beep immediately. -/
def buzzer_beep (now : Nat) (count freq duration_ms : Int) (s : BuzzerState) : BuzzerState :=
  if s.initDone = false then s
  else
    { s with beeps_remaining := count, beep_freq := freq,
             beep_duration_ms := duration_ms, duty := 128, beep_on := true,
             beep_start_ms := now }

/-- `buzzer_loop()`: one non-blocking tick of the beep sequencer. -/
def buzzer_loop (now : Nat) (s : BuzzerState) : BuzzerState :=
  if s.initDone = false ∨ s.beeps_remaining ≤ 0 then s
  else
    let elapsed := now - s.beep_start_ms
    if s.beep_on = true then
      if durU s.beep_duration_ms ≤ elapsed then
        { s with duty := 0, beep_on := false,
                 beeps_remaining := s.beeps_remaining - 1, beep_start_ms := now }
      else s
    else
      if 0 < s.beeps_remaining ∧ BEEP_GAP_MS ≤ elapsed then
        { s with duty := 128, beep_on := true, beep_start_ms := now }
      else s

/-- `buzzer_stop()`. -/
def buzzer_stop (s : BuzzerState) : BuzzerState :=
  if s.initDone = false then s
  else { s with duty := 0, beep_on := false, beeps_remaining := 0 }

/-- `buzzer_is_active()`. -/
def buzzer_is_active (s : BuzzerState) : Bool :=
  decide (0 < s.beeps_remaining) || s.beep_on

/-- Canonical dense run for the beep-burst analysis: `buzzer_beep(3,
freq, d)` at time 0 from the freshly initialized state, then
`buzzer_loop` at every millisecond `1, 2, …, t`. -/
def buzzRunMs (freq : Int) (d : Nat) : Nat → BuzzerState
  | 0 => buzzer_beep 0 3 freq (d : Int) buzzerInit
  | t + 1 => buzzer_loop (t + 1) (buzzRunMs freq d t)

/-! ## Notification pool (`notify_engine.cpp`) -/

structure Notification where
  text : String
  expire_ms : Nat
  urgent : Bool
  active : Bool
  deriving DecidableEq, Repr

/-- The three-slot static array (`MAX_NOTIFICATIONS = 3`); the
`current_index` static is render bookkeeping only and not modelled. -/
structure NotifyPool where
  n0 : Notification
  n1 : Notification
  n2 : Notification
  deriving DecidableEq, Repr

def blankNotification : Notification :=
  { text := "", expire_ms := 0, urgent := false, active := false }

/-- State after `notify_init()`. -/
def notifyInit : NotifyPool :=
  ⟨blankNotification, blankNotification, blankNotification⟩

/-- The notification record written by `notify_push` (text truncated by
`strncpy` to 63 characters, expiry `millis() + duration_sec * 1000`). -/
def mkNotification (now : Nat) (text : String) (duration_sec : Nat) (urgent : Bool) : Notification :=
  { text := text.take 63, expire_ms := now + duration_sec * 1000,
    urgent := urgent, active := true }

/-- `notify_push(const char* text, int duration_sec, bool urgent)`:
first inactive slot wins; with all three active, slots shift down and
the new notification lands in the last slot. -/
def notify_push (now : Nat) (text : String) (duration_sec : Nat) (urgent : Bool)
    (p : NotifyPool) : NotifyPool :=
  let n := mkNotification now text duration_sec urgent
  if p.n0.active = false then { p with n0 := n }
  else if p.n1.active = false then { p with n1 := n }
  else if p.n2.active = false then { p with n2 := n }
  else ⟨p.n1, p.n2, n⟩

/-- `notify_loop()`: deactivates expired notifications
(`millis() >= expire_ms`). -/
def notify_loop (now : Nat) (p : NotifyPool) : NotifyPool :=
  let f := fun (n : Notification) =>
    if n.active = true ∧ n.expire_ms ≤ now then { n with active := false } else n
  ⟨f p.n0, f p.n1, f p.n2⟩

/-- `notify_has_active()`. -/
def notify_has_active (p : NotifyPool) : Bool :=
  p.n0.active || p.n1.active || p.n2.active

/-- Number of active slots. -/
def notify_active_count (p : NotifyPool) : Nat :=
  (if p.n0.active = true then 1 else 0) +
  (if p.n1.active = true then 1 else 0) +
  (if p.n2.active = true then 1 else 0)

/-- The active notifications in slot order. -/
def notify_active_slots (p : NotifyPool) : List Notification :=
  ([p.n0, p.n1, p.n2]).filter (fun n => n.active)

/-! ## Glucose delta and history ring buffer (`http_client.cpp`) -/

def GLUCOSE_HISTORY_SIZE : Nat := 48

structure GlucoseHistoryEntry where
  glucose : Int
  delta : Int
  timestamp : Nat
  deriving DecidableEq, Repr

/-- The delta/history statics of `http_client.cpp`; the fixed C array
`history_buf[48]` is a function from index to entry. -/
structure HttpState where
  prev_glucose : Int
  current_delta : Int
  has_prev_reading : Bool
  history_buf : Nat → GlucoseHistoryEntry
  history_write_idx : Nat
  history_count : Nat

/-- The statics' initial (zeroed) values. -/
def httpInit : HttpState :=
  { prev_glucose := 0, current_delta := 0, has_prev_reading := false,
    history_buf := fun _ => ⟨0, 0, 0⟩, history_write_idx := 0, history_count := 0 }

/-- `record_reading(int glucose)`: updates the delta and appends to the
circular history buffer. -/
def record_reading (glucose : Int) (now : Nat) (s : HttpState) : HttpState :=
  let d : Int := if s.has_prev_reading = true then glucose - s.prev_glucose else 0
  { prev_glucose := glucose, current_delta := d, has_prev_reading := true,
    history_buf := fun i =>
      if i = s.history_write_idx then ⟨glucose, d, now⟩ else s.history_buf i,
    history_write_idx := (s.history_write_idx + 1) % GLUCOSE_HISTORY_SIZE,
    history_count :=
      if s.history_count < GLUCOSE_HISTORY_SIZE then s.history_count + 1
      else s.history_count }

/-- `http_get_delta()`. -/
def http_get_delta (s : HttpState) : Int := s.current_delta

/-- `http_get_history(GlucoseHistoryEntry* out, int max_count)`: copies
out `min(max_count, history_count)` entries, oldest-first. -/
def http_get_history (s : HttpState) (max_count : Nat) : List GlucoseHistoryEntry :=
  if s.history_count = 0 then []
  else
    let c := min max_count s.history_count
    let start := if s.history_count < GLUCOSE_HISTORY_SIZE then 0 else s.history_write_idx
    (List.range c).map
      (fun i => s.history_buf ((start + (s.history_count - c) + i) % GLUCOSE_HISTORY_SIZE))

/-- A sequence of accepted readings `(value, receipt time)`, applied in
order. -/
def recordAll (l : List (Int × Nat)) (s : HttpState) : HttpState :=
  l.foldl (fun a p => record_reading p.1 p.2 a) s

/-- Chronological (unbounded) history of a reading sequence, starting
from delta-tracking state `(hasPrev, prev)`. -/
def absHistFrom (hasPrev : Bool) (prev : Int) : List (Int × Nat) → List GlucoseHistoryEntry
  | [] => []
  | p :: rest =>
    ⟨p.1, if hasPrev = true then p.1 - prev else 0, p.2⟩ :: absHistFrom true p.1 rest

/-- Chronological history of a reading sequence from boot. -/
def absHist (l : List (Int × Nat)) : List GlucoseHistoryEntry :=
  absHistFrom false 0 l

/-- The last `n` elements of a list. -/
def lastN (n : Nat) (l : List α) : List α := l.drop (l.length - n)

/-! # Theorems -/

/-! ## C2: themed glucose color and threshold boundaries -/

/-- C2 counterexample: with the default configuration
(`thresh_low = 80`), the value 80 — exactly at the low threshold — is
colored with the in-range color `0x34A853`, not the low color
`0xFBBC04`, refuting the claim's "v equal to the low threshold maps to
the low color". -/
theorem themed_color_low_threshold_cex :
    defaultConfig.thresh_low = 80 ∧
    themed_glucose_color 80 defaultConfig = color_from_uint32 defaultConfig.color_in_range ∧
    themed_glucose_color 80 defaultConfig ≠ color_from_uint32 defaultConfig.color_low := by
  refine ⟨rfl, rfl, ?_⟩
  decide

/-- C2 (amended): `themed_glucose_color` is a pure function of the
value and the four configured thresholds, selecting among the five
configured colors with the stated band structure; a value exactly at a
threshold belongs to the band of lower severity: at the urgent-low
threshold it takes the low color (not urgent-low), at the low and high
thresholds the in-range color, and at the urgent-high threshold the
high color (not urgent-high). -/
theorem themed_color_boundaries (cfg : AppConfig) (v : Int)
    (h1 : cfg.thresh_urgent_low < cfg.thresh_low)
    (h2 : cfg.thresh_low ≤ cfg.thresh_high)
    (h3 : cfg.thresh_high < cfg.thresh_urgent_high) :
    themed_glucose_color v cfg =
      (if v < cfg.thresh_urgent_low then color_from_uint32 cfg.color_urgent_low
       else if v < cfg.thresh_low then color_from_uint32 cfg.color_low
       else if v ≤ cfg.thresh_high then color_from_uint32 cfg.color_in_range
       else if v ≤ cfg.thresh_urgent_high then color_from_uint32 cfg.color_high
       else color_from_uint32 cfg.color_urgent_high) ∧
    themed_glucose_color cfg.thresh_urgent_low cfg = color_from_uint32 cfg.color_low ∧
    themed_glucose_color cfg.thresh_low cfg = color_from_uint32 cfg.color_in_range ∧
    themed_glucose_color cfg.thresh_high cfg = color_from_uint32 cfg.color_in_range ∧
    themed_glucose_color cfg.thresh_urgent_high cfg = color_from_uint32 cfg.color_high := by
  refine ⟨?_, ?_, ?_, ?_, ?_⟩ <;>
    · simp only [themed_glucose_color]
      split_ifs <;> first | (exfalso; omega) | rfl

/-- C2 witness: the amended theorem applied at the default
configuration and `v = 100`. -/
theorem themed_color_boundaries_witness :
    (defaultConfig.thresh_urgent_low < defaultConfig.thresh_low ∧
     defaultConfig.thresh_low ≤ defaultConfig.thresh_high ∧
     defaultConfig.thresh_high < defaultConfig.thresh_urgent_high) ∧
    themed_glucose_color defaultConfig.thresh_urgent_low defaultConfig =
      color_from_uint32 defaultConfig.color_low :=
  ⟨by decide,
   (themed_color_boundaries defaultConfig 100 (by decide) (by decide) (by decide)).2.1⟩

/-! ## C4: delta of consecutive readings -/

theorem recordAll_append (l l' : List (Int × Nat)) (s : HttpState) :
    recordAll (l ++ l') s = recordAll l' (recordAll l s) := by
  simp [recordAll, List.foldl_append]

theorem recordAll_snoc_prev (l : List (Int × Nat)) (a : Int × Nat) (s : HttpState) :
    (recordAll (l ++ [a]) s).prev_glucose = a.1 ∧
    (recordAll (l ++ [a]) s).has_prev_reading = true := by
  rw [recordAll_append]
  simp [recordAll, record_reading]

/-- C4: after the very first accepted reading the stored delta is 0;
after every later reading it is the new value minus the previous
value. -/
theorem delta_is_difference (l : List (Int × Nat)) (a b : Int × Nat) :
    http_get_delta (recordAll [a] httpInit) = 0 ∧
    http_get_delta (recordAll (l ++ [a, b]) httpInit) = b.1 - a.1 := by
  constructor
  · simp [recordAll, record_reading, httpInit, http_get_delta]
  · have h : l ++ [a, b] = (l ++ [a]) ++ [b] := by simp
    rw [h, recordAll_append]
    have hp := recordAll_snoc_prev l a httpInit
    simp [recordAll, record_reading, http_get_delta, hp.1, hp.2]

/-! ## C10: buzzer_beep with non-positive count latches the output on -/

theorem buzzer_loop_noop_nonpos (t : Nat) (s : BuzzerState)
    (h : s.beeps_remaining ≤ 0) : buzzer_loop t s = s := by
  simp [buzzer_loop, h]

/-- C10: calling `buzzer_beep` with `count ≤ 0` on an initialized
buzzer turns the output on (duty 128) immediately; no sequence of
`buzzer_loop` ticks changes the state or makes `buzzer_is_active`
false; an explicit `buzzer_stop` silences it. -/
theorem buzzer_nonpositive_count_latches (now : Nat) (count freq dur : Int)
    (s : BuzzerState) (ts : List Nat)
    (hinit : s.initDone = true) (hc : count ≤ 0) :
    (buzzer_beep now count freq dur s).duty = 128 ∧
    (buzzer_beep now count freq dur s).beep_on = true ∧
    ts.foldl (fun a t => buzzer_loop t a) (buzzer_beep now count freq dur s) =
      buzzer_beep now count freq dur s ∧
    buzzer_is_active (ts.foldl (fun a t => buzzer_loop t a) (buzzer_beep now count freq dur s)) = true ∧
    (buzzer_stop (ts.foldl (fun a t => buzzer_loop t a) (buzzer_beep now count freq dur s))).duty = 0 ∧
    buzzer_is_active (buzzer_stop (ts.foldl (fun a t => buzzer_loop t a) (buzzer_beep now count freq dur s))) = false := by
  have hbeep : buzzer_beep now count freq dur s =
      { s with beeps_remaining := count, beep_freq := freq,
               beep_duration_ms := dur, duty := 128, beep_on := true,
               beep_start_ms := now } := by
    simp [buzzer_beep, hinit]
  have hfold : ∀ (ts' : List Nat),
      ts'.foldl (fun a t => buzzer_loop t a) (buzzer_beep now count freq dur s) =
        buzzer_beep now count freq dur s := by
    intro ts'
    induction ts' with
    | nil => rfl
    | cons t rest ih =>
      rw [List.foldl_cons, buzzer_loop_noop_nonpos t _ (by rw [hbeep]; exact hc)]
      exact ih
  refine ⟨by rw [hbeep], by rw [hbeep], hfold ts, ?_, ?_, ?_⟩
  · rw [hfold ts, hbeep]
    simp [buzzer_is_active]
  · rw [hfold ts, hbeep]
    simp [buzzer_stop, hinit]
  · rw [hfold ts, hbeep]
    simp [buzzer_stop, buzzer_is_active, hinit]

/-- C10 witness: count = 0 on the freshly initialized buzzer, three
loop ticks. -/
theorem buzzer_nonpositive_count_latches_witness :
    (buzzerInit.initDone = true ∧ (0 : Int) ≤ 0) ∧
    buzzer_is_active ([1, 2, 3].foldl (fun a t => buzzer_loop t a)
      (buzzer_beep 0 0 1000 100 buzzerInit)) = true :=
  ⟨by decide,
   (buzzer_nonpositive_count_latches 0 0 1000 100 buzzerInit [1, 2, 3] rfl (by decide)).2.2.2.1⟩

/-! ## C6: toggling through the whole order returns to the start -/

/-- A sequence of `engine_toggle_mode()` calls at the given times. -/
def toggleMany (ts : List Nat) (s : NavState) : NavState :=
  ts.foldl (fun a t => engine_toggle_mode t a) s

/-- A navigation state whose user mode (WEATHER) is out of sync with
the toggle order `[GLUCOSE, TREND, TIME]` at index 0 (reachable via
`engine_set_default_mode(STATE_WEATHER_DISPLAY)` with the weather
feature disabled). -/
def toggleManyCex : NavState :=
  { toggle_order := [STATE_GLUCOSE_DISPLAY, STATE_TREND_DISPLAY, STATE_TIME_DISPLAY],
    toggle_index := 0, user_mode := STATE_WEATHER_DISPLAY,
    last_cycle_ms := 0, last_render_ms := 0, last_rebuild_ms := 0 }

/-- The default rebuilt toggle order, in sync at index 0. -/
def toggleSyncedStart : NavState :=
  { toggle_order := [STATE_GLUCOSE_DISPLAY, STATE_TREND_DISPLAY, STATE_TIME_DISPLAY],
    toggle_index := 0, user_mode := STATE_GLUCOSE_DISPLAY,
    last_cycle_ms := 0, last_render_ms := 0, last_rebuild_ms := 0 }

theorem toggleMany_order_and_index (ts : List Nat) (s : NavState)
    (hidx : s.toggle_index < s.toggle_order.length) :
    (toggleMany ts s).toggle_order = s.toggle_order ∧
    (toggleMany ts s).toggle_index =
      (s.toggle_index + ts.length) % s.toggle_order.length := by
  induction ts generalizing s with
  | nil =>
    simp [toggleMany, Nat.mod_eq_of_lt hidx]
  | cons t rest ih =>
    have hlen : 0 < s.toggle_order.length := by omega
    have hstep : toggleMany (t :: rest) s = toggleMany rest (engine_toggle_mode t s) := rfl
    have ho0 : (engine_toggle_mode t s).toggle_order = s.toggle_order := rfl
    have hi0 : (engine_toggle_mode t s).toggle_index =
        (s.toggle_index + 1) % s.toggle_order.length := rfl
    have hidx' : (engine_toggle_mode t s).toggle_index <
        (engine_toggle_mode t s).toggle_order.length := by
      rw [ho0, hi0]
      exact Nat.mod_lt _ hlen
    obtain ⟨ho, hi⟩ := ih (engine_toggle_mode t s) hidx'
    rw [hstep]
    refine ⟨by rw [ho, ho0], ?_⟩
    rw [hi, ho0, hi0, Nat.mod_add_mod]
    apply congrArg (fun k => k % s.toggle_order.length)
    simp only [List.length_cons]
    omega

theorem toggleMany_user_mode (ts : List Nat) (s : NavState)
    (hidx : s.toggle_index < s.toggle_order.length) (hne : ts ≠ []) :
    (toggleMany ts s).user_mode =
      s.toggle_order.getD ((s.toggle_index + ts.length) % s.toggle_order.length) 0 := by
  induction ts generalizing s with
  | nil => exact absurd rfl hne
  | cons t rest ih =>
    have hlen : 0 < s.toggle_order.length := by omega
    have hstep : toggleMany (t :: rest) s = toggleMany rest (engine_toggle_mode t s) := rfl
    have ho0 : (engine_toggle_mode t s).toggle_order = s.toggle_order := rfl
    have hi0 : (engine_toggle_mode t s).toggle_index =
        (s.toggle_index + 1) % s.toggle_order.length := rfl
    rcases rest with _ | ⟨t2, rest2⟩
    · rfl
    · have hidx' : (engine_toggle_mode t s).toggle_index <
          (engine_toggle_mode t s).toggle_order.length := by
        rw [ho0, hi0]
        exact Nat.mod_lt _ hlen
      rw [hstep, ih (engine_toggle_mode t s) hidx' (by simp), ho0, hi0, Nat.mod_add_mod]
      apply congrArg (fun k => s.toggle_order.getD (k % s.toggle_order.length) 0)
      simp only [List.length_cons]
      omega

/-- C6 (amended): provided the starting user mode is the toggle-order
entry at the current toggle index (as holds after any toggle,
auto-cycle advance, or rebuild that finds the mode), calling
`engine_toggle_mode` once per entry of a nonempty toggle order returns
the user mode — and the toggle index — to their starting values. -/
theorem toggle_full_cycle_returns (ts : List Nat) (s : NavState)
    (hlen : ts.length = s.toggle_order.length)
    (hne : s.toggle_order ≠ [])
    (hidx : s.toggle_index < s.toggle_order.length)
    (hsync : s.toggle_order.getD s.toggle_index 0 = s.user_mode) :
    (toggleMany ts s).user_mode = s.user_mode ∧
    (toggleMany ts s).toggle_index = s.toggle_index := by
  have hpos : 0 < s.toggle_order.length := List.length_pos.mpr hne
  have hts : ts ≠ [] := by
    intro h
    rw [h] at hlen
    simp at hlen
    omega
  have hmod : (s.toggle_index + ts.length) % s.toggle_order.length = s.toggle_index := by
    rw [hlen, Nat.add_mod_right, Nat.mod_eq_of_lt hidx]
  constructor
  · rw [toggleMany_user_mode ts s hidx hts, hmod, hsync]
  · rw [(toggleMany_order_and_index ts s hidx).2, hmod]

/-- C6 counterexample: a reachable state (user mode set to WEATHER via
`engine_set_default_mode` while WEATHER is absent from the toggle
order, so `toggle_index` stayed 0) where cycling through all
`len(toggle_order) = 3` entries lands on GLUCOSE, not back on the
starting user mode WEATHER — refuting the claim for arbitrary starting
user modes. -/
theorem toggle_full_cycle_cex :
    (toggleManyCex.toggle_order.length = 3 ∧ toggleManyCex.user_mode = STATE_WEATHER_DISPLAY) ∧
    (toggleMany [10, 20, 30] toggleManyCex).user_mode = STATE_GLUCOSE_DISPLAY ∧
    (toggleMany [10, 20, 30] toggleManyCex).user_mode ≠ toggleManyCex.user_mode := by
  decide

/-- C6 witness: the default rebuilt order `[GLUCOSE, TREND, TIME]`
starting in sync at index 0. -/
theorem toggle_full_cycle_witness :
    (([10, 20, 30] : List Nat).length = toggleSyncedStart.toggle_order.length ∧
     toggleSyncedStart.toggle_order ≠ [] ∧
     toggleSyncedStart.toggle_index < toggleSyncedStart.toggle_order.length ∧
     toggleSyncedStart.toggle_order.getD toggleSyncedStart.toggle_index 0 =
       toggleSyncedStart.user_mode) ∧
    (toggleMany [10, 20, 30] toggleSyncedStart).user_mode = toggleSyncedStart.user_mode :=
  ⟨⟨by decide, by decide, by decide, by decide⟩,
   (toggle_full_cycle_returns [10, 20, 30] toggleSyncedStart
      (by decide) (by decide) (by decide) (by decide)).1⟩

/-! ## C1: total, deterministic state precedence -/

/-- An input whose reading carries the out-of-range server force-mode
index 99 while every higher-priority rule is off. -/
def forceModeOutOfRange : EngineInput :=
  { now := 10000, boot_start_ms := 0, wifi_connected := true, has_wifi := true,
    has_server := true, notify_active := false, failures := 0, ever_received := true,
    last_success_ms := 10000, state_forced := false, forced_state := 0,
    reading_valid := true, force_mode := 99, message := "", user_mode := 1,
    cfg := defaultConfig }

/-- C1 counterexample: `evaluate_state` casts a non-negative
`force_mode` to a display state without bounds validation, so the
force-mode index 99 yields the value 99 — not one of the 15 display
states — refuting "selects exactly one of the 15 display states" for
arbitrary inputs. -/
theorem evaluate_state_out_of_enum_cex :
    evaluate_state forceModeOutOfRange = 99 ∧
    ¬ evaluate_state forceModeOutOfRange ≤ 14 := by
  decide

/-- C1 (amended): provided a set forced state, the user mode and any
non-negative force-mode index name one of the 15 states (codes ≤ 14),
`evaluate_state` selects exactly one of the 15 display states and
follows the ordered precedence: boot splash, NO_WIFI, NO_CONFIG,
NOTIFY, NO_DATA, STALE, the forced state, the force-mode state,
MESSAGE, else the user's selected mode. -/
theorem evaluate_state_total_precedence (inp : EngineInput)
    (hforced : inp.forced_state ≤ 14)
    (huser : inp.user_mode ≤ 14)
    (hfm : inp.force_mode ≤ 14) :
    evaluate_state inp ≤ 14 ∧
    (inp.now - inp.boot_start_ms < 2000 → evaluate_state inp = STATE_BOOT) ∧
    (¬(inp.now - inp.boot_start_ms < 2000) →
      inp.wifi_connected = false ∧ inp.has_wifi = true →
      evaluate_state inp = STATE_NO_WIFI) ∧
    (¬(inp.now - inp.boot_start_ms < 2000) →
      ¬(inp.wifi_connected = false ∧ inp.has_wifi = true) →
      inp.has_server = false ∧ inp.has_wifi = false →
      evaluate_state inp = STATE_NO_CFG) ∧
    (¬(inp.now - inp.boot_start_ms < 2000) →
      ¬(inp.wifi_connected = false ∧ inp.has_wifi = true) →
      ¬(inp.has_server = false ∧ inp.has_wifi = false) →
      inp.cfg.notify_enabled = true ∧ inp.notify_active = true →
      evaluate_state inp = STATE_NOTIFY_DISPLAY) ∧
    (¬(inp.now - inp.boot_start_ms < 2000) →
      ¬(inp.wifi_connected = false ∧ inp.has_wifi = true) →
      ¬(inp.has_server = false ∧ inp.has_wifi = false) →
      ¬(inp.cfg.notify_enabled = true ∧ inp.notify_active = true) →
      (10 ≤ inp.failures ∨ inp.ever_received = false) ∧
        inp.has_server = true ∧ 5000 < inp.now - inp.boot_start_ms →
      evaluate_state inp = STATE_NO_DATA) ∧
    (¬(inp.now - inp.boot_start_ms < 2000) →
      ¬(inp.wifi_connected = false ∧ inp.has_wifi = true) →
      ¬(inp.has_server = false ∧ inp.has_wifi = false) →
      ¬(inp.cfg.notify_enabled = true ∧ inp.notify_active = true) →
      ¬((10 ≤ inp.failures ∨ inp.ever_received = false) ∧
          inp.has_server = true ∧ 5000 < inp.now - inp.boot_start_ms) →
      inp.cfg.stale_timeout_min * 60 * 1000 ≤ http_time_since_last_reading inp ∨
        5 ≤ inp.failures →
      evaluate_state inp = STATE_STALE_WARNING) ∧
    (¬(inp.now - inp.boot_start_ms < 2000) →
      ¬(inp.wifi_connected = false ∧ inp.has_wifi = true) →
      ¬(inp.has_server = false ∧ inp.has_wifi = false) →
      ¬(inp.cfg.notify_enabled = true ∧ inp.notify_active = true) →
      ¬((10 ≤ inp.failures ∨ inp.ever_received = false) ∧
          inp.has_server = true ∧ 5000 < inp.now - inp.boot_start_ms) →
      ¬(inp.cfg.stale_timeout_min * 60 * 1000 ≤ http_time_since_last_reading inp ∨
          5 ≤ inp.failures) →
      inp.state_forced = true →
      evaluate_state inp = inp.forced_state) ∧
    (¬(inp.now - inp.boot_start_ms < 2000) →
      ¬(inp.wifi_connected = false ∧ inp.has_wifi = true) →
      ¬(inp.has_server = false ∧ inp.has_wifi = false) →
      ¬(inp.cfg.notify_enabled = true ∧ inp.notify_active = true) →
      ¬((10 ≤ inp.failures ∨ inp.ever_received = false) ∧
          inp.has_server = true ∧ 5000 < inp.now - inp.boot_start_ms) →
      ¬(inp.cfg.stale_timeout_min * 60 * 1000 ≤ http_time_since_last_reading inp ∨
          5 ≤ inp.failures) →
      ¬(inp.state_forced = true) →
      inp.reading_valid = true ∧ 0 ≤ inp.force_mode →
      evaluate_state inp = inp.force_mode.toNat) ∧
    (¬(inp.now - inp.boot_start_ms < 2000) →
      ¬(inp.wifi_connected = false ∧ inp.has_wifi = true) →
      ¬(inp.has_server = false ∧ inp.has_wifi = false) →
      ¬(inp.cfg.notify_enabled = true ∧ inp.notify_active = true) →
      ¬((10 ≤ inp.failures ∨ inp.ever_received = false) ∧
          inp.has_server = true ∧ 5000 < inp.now - inp.boot_start_ms) →
      ¬(inp.cfg.stale_timeout_min * 60 * 1000 ≤ http_time_since_last_reading inp ∨
          5 ≤ inp.failures) →
      ¬(inp.state_forced = true) →
      ¬(inp.reading_valid = true ∧ 0 ≤ inp.force_mode) →
      inp.reading_valid = true ∧ inp.message ≠ "" →
      evaluate_state inp = STATE_MESSAGE_DISPLAY) ∧
    (¬(inp.now - inp.boot_start_ms < 2000) →
      ¬(inp.wifi_connected = false ∧ inp.has_wifi = true) →
      ¬(inp.has_server = false ∧ inp.has_wifi = false) →
      ¬(inp.cfg.notify_enabled = true ∧ inp.notify_active = true) →
      ¬((10 ≤ inp.failures ∨ inp.ever_received = false) ∧
          inp.has_server = true ∧ 5000 < inp.now - inp.boot_start_ms) →
      ¬(inp.cfg.stale_timeout_min * 60 * 1000 ≤ http_time_since_last_reading inp ∨
          5 ≤ inp.failures) →
      ¬(inp.state_forced = true) →
      ¬(inp.reading_valid = true ∧ 0 ≤ inp.force_mode) →
      ¬(inp.reading_valid = true ∧ inp.message ≠ "") →
      evaluate_state inp = inp.user_mode) := by
  refine ⟨?_, ?_, ?_, ?_, ?_, ?_, ?_, ?_, ?_, ?_, ?_⟩ <;>
    · intros
      simp only [evaluate_state]
      split_ifs <;> first | decide | rfl | omega

/-- C1 witness: the amended theorem applied at the counterexample's
input with the force-mode cleared (`force_mode = -1`): the result is
among the 15 states. -/
theorem evaluate_state_total_precedence_witness :
    let inp : EngineInput :=
      { forceModeOutOfRange with force_mode := -1 }
    (inp.forced_state ≤ 14 ∧ inp.user_mode ≤ 14 ∧ inp.force_mode ≤ 14) ∧
    evaluate_state inp ≤ 14 :=
  ⟨⟨by decide, by decide, by decide⟩,
   (evaluate_state_total_precedence { forceModeOutOfRange with force_mode := -1 }
      (by decide) (by decide) (by decide)).1⟩

/-! ## C3: the freshness and failure classifier -/

/-- An input with `failures = 10` but a perfectly fresh reading
(`age = 0`), all higher-priority rules off, after the grace period. -/
def tenFailuresFresh : EngineInput :=
  { now := 10000, boot_start_ms := 0, wifi_connected := true, has_wifi := true,
    has_server := true, notify_active := false, failures := 10, ever_received := true,
    last_success_ms := 10000, state_forced := false, forced_state := 0,
    reading_valid := true, force_mode := -1, message := "", user_mode := 1,
    cfg := defaultConfig }

/-- C3 counterexample: with 10 consecutive failures and a fresh
reading, the claim's "STALE exactly when age ≥ stale_timeout or
failures ≥ 5" demands STALE (failures ≥ 5 and no boot/WiFi/config/
notify rule fires), but the code returns NO_DATA: the NO_DATA rule
precedes the stale check and fires at `failures ≥ 10` (with a
configured server, after the grace period) even when readings were
received. -/
theorem freshness_stale_iff_cex :
    (¬(tenFailuresFresh.now - tenFailuresFresh.boot_start_ms < 2000) ∧
     ¬(tenFailuresFresh.wifi_connected = false ∧ tenFailuresFresh.has_wifi = true) ∧
     ¬(tenFailuresFresh.has_server = false ∧ tenFailuresFresh.has_wifi = false) ∧
     ¬(tenFailuresFresh.cfg.notify_enabled = true ∧ tenFailuresFresh.notify_active = true) ∧
     5 ≤ tenFailuresFresh.failures) ∧
    evaluate_state tenFailuresFresh = STATE_NO_DATA ∧
    evaluate_state tenFailuresFresh ≠ STATE_STALE_WARNING := by
  decide

/-- C3 (amended): provided the boot-splash, NO_WIFI, NO_CONFIG and
NOTIFY rules do not fire, no forced-state or force-mode override is
active, and the user mode is not itself STALE or NO_DATA: the
evaluation yields NO_DATA exactly when (failures ≥ 10 or no fetch ever
succeeded) and a server is configured and the 5-second post-boot grace
period has elapsed — the grace period and the configured-server
condition gate both disjuncts — and yields STALE exactly when the
NO_DATA rule does not fire and (age ≥ stale_timeout or failures ≥ 5),
where the age is `ULONG_MAX` when no fetch ever succeeded. -/
theorem freshness_classifier (inp : EngineInput)
    (h1 : ¬(inp.now - inp.boot_start_ms < 2000))
    (h2 : ¬(inp.wifi_connected = false ∧ inp.has_wifi = true))
    (h3 : ¬(inp.has_server = false ∧ inp.has_wifi = false))
    (h4 : ¬(inp.cfg.notify_enabled = true ∧ inp.notify_active = true))
    (h5 : inp.state_forced = false)
    (h6 : ¬(inp.reading_valid = true ∧ 0 ≤ inp.force_mode))
    (h7 : inp.user_mode ≠ STATE_NO_DATA)
    (h8 : inp.user_mode ≠ STATE_STALE_WARNING) :
    (evaluate_state inp = STATE_NO_DATA ↔
      (10 ≤ inp.failures ∨ inp.ever_received = false) ∧
        inp.has_server = true ∧ 5000 < inp.now - inp.boot_start_ms) ∧
    (evaluate_state inp = STATE_STALE_WARNING ↔
      ¬((10 ≤ inp.failures ∨ inp.ever_received = false) ∧
          inp.has_server = true ∧ 5000 < inp.now - inp.boot_start_ms) ∧
      (inp.cfg.stale_timeout_min * 60 * 1000 ≤ http_time_since_last_reading inp ∨
        5 ≤ inp.failures)) := by
  have hmid : evaluate_state inp =
      (if (10 ≤ inp.failures ∨ inp.ever_received = false) ∧
            inp.has_server = true ∧ 5000 < inp.now - inp.boot_start_ms then STATE_NO_DATA
       else if inp.cfg.stale_timeout_min * 60 * 1000 ≤ http_time_since_last_reading inp ∨
            5 ≤ inp.failures then STATE_STALE_WARNING
       else if inp.reading_valid = true ∧ inp.message ≠ "" then STATE_MESSAGE_DISPLAY
       else inp.user_mode) := by
    simp only [evaluate_state]
    rw [if_neg h1, if_neg h2, if_neg h3, if_neg h4]
    by_cases hG5 : (10 ≤ inp.failures ∨ inp.ever_received = false) ∧
        inp.has_server = true ∧ 5000 < inp.now - inp.boot_start_ms
    · rw [if_pos hG5, if_pos hG5]
    · rw [if_neg hG5, if_neg hG5]
      by_cases hG6 : inp.cfg.stale_timeout_min * 60 * 1000 ≤
          http_time_since_last_reading inp ∨ 5 ≤ inp.failures
      · rw [if_pos hG6, if_pos hG6]
      · rw [if_neg hG6, if_neg hG6, if_neg (by simp [h5]), if_neg h6]
  rw [hmid]
  by_cases hG5 : (10 ≤ inp.failures ∨ inp.ever_received = false) ∧
      inp.has_server = true ∧ 5000 < inp.now - inp.boot_start_ms
  · rw [if_pos hG5]
    exact ⟨iff_of_true rfl hG5, iff_of_false (by decide) (fun h => h.1 hG5)⟩
  · rw [if_neg hG5]
    by_cases hG6 : inp.cfg.stale_timeout_min * 60 * 1000 ≤
        http_time_since_last_reading inp ∨ 5 ≤ inp.failures
    · rw [if_pos hG6]
      exact ⟨iff_of_false (by decide) (fun h => hG5 h), iff_of_true rfl ⟨hG5, hG6⟩⟩
    · rw [if_neg hG6]
      refine ⟨iff_of_false ?_ (fun h => hG5 h), iff_of_false ?_ (fun h => hG6 h.2)⟩
      · split_ifs <;> first | decide | exact h7
      · split_ifs <;> first | decide | exact h8

/-- C3 witness: the spec's scenario — age since last success 25
minutes with `stale_timeout = 20` minutes and failures below both
failure thresholds — yields STALE through the amended theorem. -/
theorem freshness_classifier_witness :
    let inp : EngineInput :=
      { tenFailuresFresh with failures := 0, now := 1600000, last_success_ms := 100000 }
    (¬(inp.now - inp.boot_start_ms < 2000) ∧
     ¬(inp.wifi_connected = false ∧ inp.has_wifi = true) ∧
     ¬(inp.has_server = false ∧ inp.has_wifi = false) ∧
     ¬(inp.cfg.notify_enabled = true ∧ inp.notify_active = true) ∧
     inp.state_forced = false ∧
     ¬(inp.reading_valid = true ∧ 0 ≤ inp.force_mode) ∧
     inp.user_mode ≠ STATE_NO_DATA ∧ inp.user_mode ≠ STATE_STALE_WARNING) ∧
    evaluate_state
      { tenFailuresFresh with failures := 0, now := 1600000, last_success_ms := 100000 } =
      STATE_STALE_WARNING :=
  ⟨⟨by decide, by decide, by decide, by decide, by decide, by decide, by decide, by decide⟩,
   ((freshness_classifier
      { tenFailuresFresh with failures := 0, now := 1600000, last_success_ms := 100000 }
      (by decide) (by decide) (by decide) (by decide) (by decide) (by decide)
      (by decide) (by decide)).2).mpr (by decide)⟩

/-! ## C9: notification pool bound and eviction order -/

theorem lastN_succ_snoc (n : Nat) (l : List α) (e : α) :
    lastN (n + 1) (l ++ [e]) = lastN n l ++ [e] := by
  simp only [lastN, List.length_append, List.length_cons, List.length_nil]
  rw [List.drop_append_of_le_length (by omega)]
  congr 2
  omega

theorem lastN_lastN (m n : Nat) (l : List α) (h : m ≤ n) :
    lastN m (lastN n l) = lastN m l := by
  simp only [lastN, List.length_drop, List.drop_drop]
  congr 1
  omega

theorem lastN_length_le (n : Nat) (l : List α) : (lastN n l).length ≤ n := by
  simp only [lastN, List.length_drop]
  omega

/-- The pool shape reached by pushes only: slots fill in order, the
rest stay blank. -/
def padPool : List Notification → NotifyPool
  | [] => notifyInit
  | [x] => ⟨x, blankNotification, blankNotification⟩
  | [x, y] => ⟨x, y, blankNotification⟩
  | x :: y :: z :: _ => ⟨x, y, z⟩

/-- A push trace: `(now, text, duration_sec, urgent)` per call. -/
def pushAll (ps : List (Nat × String × Nat × Bool)) : NotifyPool :=
  ps.foldl (fun p q => notify_push q.1 q.2.1 q.2.2.1 q.2.2.2 p) notifyInit

/-- The notification records of a push trace, in push order. -/
def mkAll (ps : List (Nat × String × Nat × Bool)) : List Notification :=
  ps.map (fun q => mkNotification q.1 q.2.1 q.2.2.1 q.2.2.2)

theorem pushAll_padPool (ps : List (Nat × String × Nat × Bool)) :
    pushAll ps = padPool (lastN 3 (mkAll ps)) ∧
    (∀ n ∈ lastN 3 (mkAll ps), n.active = true) ∧
    notify_active_slots (pushAll ps) = lastN 3 (mkAll ps) := by
  induction ps using List.reverseRecOn with
  | nil =>
    refine ⟨rfl, by simp [mkAll, lastN], by decide⟩
  | append_singleton ps q ih =>
    obtain ⟨hpool, hact, _⟩ := ih
    have hfold : pushAll (ps ++ [q]) =
        notify_push q.1 q.2.1 q.2.2.1 q.2.2.2 (pushAll ps) := by
      simp [pushAll, List.foldl_append]
    have hmk : mkAll (ps ++ [q]) = mkAll ps ++ [mkNotification q.1 q.2.1 q.2.2.1 q.2.2.2] := by
      simp [mkAll]
    have hsnoc : lastN 3 (mkAll (ps ++ [q])) =
        lastN 2 (mkAll ps) ++ [mkNotification q.1 q.2.1 q.2.2.1 q.2.2.2] := by
      rw [hmk]
      exact lastN_succ_snoc 2 (mkAll ps) _
    have h23 : lastN 2 (mkAll ps) = lastN 2 (lastN 3 (mkAll ps)) :=
      (lastN_lastN 2 3 (mkAll ps) (by omega)).symm
    have hlen3 : (lastN 3 (mkAll ps)).length ≤ 3 := lastN_length_le 3 (mkAll ps)
    have hactive : (mkNotification q.1 q.2.1 q.2.2.1 q.2.2.2).active = true := rfl
    rw [hfold, hpool, hsnoc, h23]
    rcases hM : lastN 3 (mkAll ps) with _ | ⟨a, _ | ⟨b, _ | ⟨c, _ | ⟨d, t⟩⟩⟩⟩
    · refine ⟨rfl, ?_, rfl⟩
      intro n hn
      simp only [lastN, List.length_nil, Nat.zero_sub, List.drop_nil, List.nil_append,
        List.mem_singleton] at hn
      rw [hn]
      exact hactive
    · have ha : a.active = true := hact a (by rw [hM]; exact List.mem_cons_self a _)
      refine ⟨?_, ?_, ?_⟩
      · simp [lastN, padPool, notify_push, ha, blankNotification]
      · intro n hn
        simp only [lastN, List.length_cons, List.length_nil, List.drop_nil,
          List.nil_append, List.cons_append, List.mem_cons, List.drop,
          List.mem_singleton, List.not_mem_nil, or_false] at hn
        rcases hn with h | h <;> rw [h]
        · exact ha
        · exact hactive
      · simp [lastN, padPool, notify_push, notify_active_slots, ha, hactive,
          blankNotification, mkNotification]
    · have ha : a.active = true := hact a (by rw [hM]; exact List.mem_cons_self a _)
      have hb : b.active = true := hact b (by rw [hM]; simp)
      refine ⟨?_, ?_, ?_⟩
      · simp [lastN, padPool, notify_push, ha, hb, blankNotification]
      · intro n hn
        simp only [lastN, List.length_cons, List.length_nil, List.drop_nil,
          List.nil_append, List.cons_append, List.mem_cons, List.drop,
          List.mem_singleton, List.not_mem_nil, or_false] at hn
        rcases hn with h | h | h <;> rw [h]
        · exact ha
        · exact hb
        · exact hactive
      · simp [lastN, padPool, notify_push, notify_active_slots, ha, hb, hactive,
          blankNotification, mkNotification]
    · have ha : a.active = true := hact a (by rw [hM]; exact List.mem_cons_self a _)
      have hb : b.active = true := hact b (by rw [hM]; simp)
      have hc : c.active = true := hact c (by rw [hM]; simp)
      refine ⟨?_, ?_, ?_⟩
      · simp [lastN, padPool, notify_push, ha, hb, hc, blankNotification]
      · intro n hn
        simp only [lastN, List.length_cons, List.length_nil, List.drop_nil,
          List.nil_append, List.cons_append, List.mem_cons, List.drop,
          List.mem_singleton, List.not_mem_nil, or_false] at hn
        rcases hn with h | h | h <;> rw [h]
        · exact hb
        · exact hc
        · exact hactive
      · simp [lastN, padPool, notify_push, notify_active_slots, ha, hb, hc, hactive,
          blankNotification, mkNotification]
    · exfalso
      rw [hM] at hlen3
      simp at hlen3

/-- C9 counterexample trace: A, B, C pushed (A with a short duration),
A expires, D fills A's freed slot 0, then E arrives with all slots
occupied. -/
def notifyCexAfterD : NotifyPool :=
  notify_push 3100 "D" 100 false
    (notify_loop 3000
      (notify_push 1200 "C" 100 false
        (notify_push 1100 "B" 100 false
          (notify_push 1000 "A" 1 false notifyInit))))

set_option maxRecDepth 8192 in
/-- C9 counterexample: before the final push the pool holds D (slot 0,
pushed at 3100), B (slot 1, pushed at 1100) and C (slot 2, pushed at
1200), all active; pushing E evicts D — the newest notification — while
the oldest, B, survives, refuting "the oldest notification in the pool
is the one evicted". -/
theorem notify_fifo_eviction_cex :
    (notifyCexAfterD.n0.text = "D" ∧ notifyCexAfterD.n1.text = "B" ∧
     notifyCexAfterD.n2.text = "C" ∧ notifyCexAfterD.n0.active = true ∧
     notifyCexAfterD.n1.active = true ∧ notifyCexAfterD.n2.active = true) ∧
    ((notify_push 3200 "E" 100 false notifyCexAfterD).n0.text = "B" ∧
     (notify_push 3200 "E" 100 false notifyCexAfterD).n1.text = "C" ∧
     (notify_push 3200 "E" 100 false notifyCexAfterD).n2.text = "E") :=
  ⟨⟨rfl, rfl, rfl, rfl, rfl, rfl⟩, rfl, rfl, rfl⟩

/-- C9 (amended): at most 3 notifications are active at any time; when
a push arrives with all 3 slots occupied, the slot-0 notification is
evicted (slots shift down, the new one lands in the last slot); in a
push-only history the active slots are exactly the last ≤ 3 pushed
notifications in push order, so slot 0 — the eviction victim — is then
the oldest.  (When expiry frees a middle slot, a later push can make
slot order disagree with age order, and the victim need not be the
oldest.) -/
theorem notify_pool_bounded_fifo :
    (∀ p : NotifyPool, notify_active_count p ≤ 3) ∧
    (∀ (now : Nat) (text : String) (dur : Nat) (urg : Bool) (p : NotifyPool),
      p.n0.active = true → p.n1.active = true → p.n2.active = true →
      notify_push now text dur urg p =
        ⟨p.n1, p.n2, mkNotification now text dur urg⟩) ∧
    (∀ ps : List (Nat × String × Nat × Bool),
      notify_active_slots (pushAll ps) = lastN 3 (mkAll ps)) := by
  refine ⟨?_, ?_, ?_⟩
  · intro p
    unfold notify_active_count
    split_ifs <;> omega
  · intro now text dur urg p h0 h1 h2
    unfold notify_push
    rw [if_neg (by simp [h0]), if_neg (by simp [h1]), if_neg (by simp [h2])]
  · intro ps
    exact (pushAll_padPool ps).2.2

/-! ## C5: the glucose history ring buffer -/

theorem getD_drop' (l : List α) (k i : Nat) (d : α) :
    (l.drop k).getD i d = l.getD (k + i) d := by
  simp [List.getD_eq_getElem?_getD, List.getElem?_drop]

theorem lastN_zero (l : List α) : lastN 0 l = [] := by
  simp [lastN]

theorem lastN_all (l : List α) : lastN l.length l = l := by
  simp [lastN]

theorem lastN_length (n : Nat) (l : List α) :
    (lastN n l).length = l.length - (l.length - n) := by
  simp [lastN]

theorem list_ext_getD (d : α) (L1 L2 : List α) (hlen : L1.length = L2.length)
    (h : ∀ i, i < L1.length → L1.getD i d = L2.getD i d) : L1 = L2 := by
  apply List.ext_getElem hlen
  intro i h1 h2
  have hh := h i h1
  simpa [List.getD_eq_getElem?_getD, List.getElem?_eq_getElem, h1, h2] using hh

/-- The default (zeroed) history entry. -/
def zeroEntry : GlucoseHistoryEntry := ⟨0, 0, 0⟩

/-- The buffer statics represent the chronological entry list `l`:
count and write index are determined by `l.length`, and the cells hold
the last `min |l| 48` entries in ring order. -/
def HistInv (s : HttpState) (l : List GlucoseHistoryEntry) : Prop :=
  s.history_count = min l.length 48 ∧
  s.history_write_idx = l.length % 48 ∧
  ∀ i, i < s.history_count →
    s.history_buf ((s.history_write_idx + (48 - s.history_count) + i) % 48) =
      (lastN s.history_count l).getD i zeroEntry

theorem HistInv_init : HistInv httpInit [] := by
  refine ⟨rfl, rfl, ?_⟩
  intro i hi
  simp [httpInit] at hi

theorem HistInv_record (s : HttpState) (l : List GlucoseHistoryEntry)
    (h : HistInv s l) (g : Int) (t : Nat) :
    HistInv (record_reading g t s)
      (l ++ [⟨g, if s.has_prev_reading = true then g - s.prev_glucose else 0, t⟩]) := by
  obtain ⟨hc, hw, hb⟩ := h
  set L := l.length with hL
  set E : GlucoseHistoryEntry :=
    ⟨g, if s.has_prev_reading = true then g - s.prev_glucose else 0, t⟩ with hE
  have hwlt : s.history_write_idx < 48 := by omega
  have hcount : (record_reading g t s).history_count = min (L + 1) 48 := by
    simp only [record_reading, GLUCOSE_HISTORY_SIZE]
    split_ifs <;> omega
  have hwidx : (record_reading g t s).history_write_idx = (L + 1) % 48 := by
    simp only [record_reading, GLUCOSE_HISTORY_SIZE]
    omega
  refine ⟨by simpa using hcount, by simpa using hwidx, ?_⟩
  intro i hi
  rw [hcount] at hi
  have hc' : min (L + 1) 48 ≥ 1 := by omega
  have hsplit : lastN (min (L + 1) 48) (l ++ [E]) =
      lastN (min (L + 1) 48 - 1) l ++ [E] := by
    have h1 : min (L + 1) 48 = (min (L + 1) 48 - 1) + 1 := by omega
    rw [h1, lastN_succ_snoc]
    have h2 : min (L + 1) 48 - 1 + 1 - 1 = min (L + 1) 48 - 1 := by omega
    rw [h2]
  have hAlen : (lastN (min (L + 1) 48 - 1) l).length = min (L + 1) 48 - 1 := by
    rw [lastN_length]
    omega
  rw [hcount, hwidx, hsplit]
  by_cases hlast : i = min (L + 1) 48 - 1
  · -- the newly written cell
    have hidx : ((L + 1) % 48 + (48 - min (L + 1) 48) + i) % 48 = s.history_write_idx := by
      rw [hw]
      omega
    rw [hidx, hlast]
    have hget : (lastN (min (L + 1) 48 - 1) l ++ [E]).getD
        (lastN (min (L + 1) 48 - 1) l).length zeroEntry = E := by
      simp [List.getD_eq_getElem?_getD]
    rw [hAlen] at hget
    rw [hget]
    simp [record_reading]
  · -- untouched cells: fall back to the old invariant
    have hi' : i < min (L + 1) 48 - 1 := by omega
    have hgetA : (lastN (min (L + 1) 48 - 1) l ++ [E]).getD i zeroEntry =
        (lastN (min (L + 1) 48 - 1) l).getD i zeroEntry := by
      rw [List.getD_append]
      omega
    rw [hgetA]
    have hne : ((L + 1) % 48 + (48 - min (L + 1) 48) + i) % 48 ≠ s.history_write_idx := by
      rw [hw]
      omega
    have hbuf : (record_reading g t s).history_buf
        (((L + 1) % 48 + (48 - min (L + 1) 48) + i) % 48) =
        s.history_buf (((L + 1) % 48 + (48 - min (L + 1) 48) + i) % 48) := by
      simp only [record_reading]
      rw [if_neg hne]
    rw [hbuf]
    rcases Nat.lt_or_ge L 48 with hL48 | hL48
    · -- buffer not yet full: plain prefix layout
      have hcL : s.history_count = L := by omega
      have hwL : s.history_write_idx = L := by
        rw [hw]
        omega
      have hidx : ((L + 1) % 48 + (48 - min (L + 1) 48) + i) % 48 = i := by
        omega
      have hidxo : (s.history_write_idx + (48 - s.history_count) + i) % 48 = i := by
        rw [hcL, hwL]
        omega
      have hold := hb i (by omega)
      rw [hidxo] at hold
      rw [hidx, hold, hcL]
      have hl1 : min (L + 1) 48 - 1 = L := by omega
      rw [hl1]
    · -- buffer full: ring layout shifts by one
      have hcL : s.history_count = 48 := by omega
      have hmin : min (L + 1) 48 = 48 := by omega
      have hidx : ((L + 1) % 48 + (48 - min (L + 1) 48) + i) % 48 =
          (s.history_write_idx + (48 - s.history_count) + (i + 1)) % 48 := by
        rw [hw, hcL]
        omega
      have hold := hb (i + 1) (by omega)
      rw [hidx, hold, hcL]
      have h47 : min (L + 1) 48 - 1 = 47 := by omega
      rw [h47]
      have hlast48 : lastN 48 l = l.drop (L - 48) := by
        simp [lastN, hL]
      have hlast47 : lastN 47 l = l.drop (L - 47) := by
        simp [lastN, hL]
      rw [hlast48, hlast47, getD_drop', getD_drop']
      congr 1
      omega

theorem HistInv_recordAll (vs : List (Int × Nat)) (s : HttpState)
    (l : List GlucoseHistoryEntry) (h : HistInv s l) :
    HistInv (recordAll vs s)
      (l ++ absHistFrom s.has_prev_reading s.prev_glucose vs) := by
  induction vs generalizing s l with
  | nil => simpa [recordAll, absHistFrom]
  | cons p vs ih =>
    have hstep : recordAll (p :: vs) s = recordAll vs (record_reading p.1 p.2 s) := rfl
    have habs : absHistFrom s.has_prev_reading s.prev_glucose (p :: vs) =
        (⟨p.1, if s.has_prev_reading = true then p.1 - s.prev_glucose else 0, p.2⟩ :
          GlucoseHistoryEntry) :: absHistFrom true p.1 vs := rfl
    have hrec1 : (record_reading p.1 p.2 s).has_prev_reading = true := rfl
    have hrec2 : (record_reading p.1 p.2 s).prev_glucose = p.1 := rfl
    have := ih (record_reading p.1 p.2 s)
      (l ++ [⟨p.1, if s.has_prev_reading = true then p.1 - s.prev_glucose else 0, p.2⟩])
      (HistInv_record s l h p.1 p.2)
    rw [hrec1, hrec2] at this
    rw [hstep, habs]
    simpa [List.append_assoc] using this

theorem absHistFrom_length (hp : Bool) (pr : Int) (vs : List (Int × Nat)) :
    (absHistFrom hp pr vs).length = vs.length := by
  induction vs generalizing hp pr with
  | nil => rfl
  | cons p vs ih => simp [absHistFrom, ih]

theorem http_get_history_of_inv (s : HttpState) (l : List GlucoseHistoryEntry)
    (h : HistInv s l) (m : Nat) :
    http_get_history s m = lastN (min m s.history_count) l := by
  obtain ⟨hc, hw, hb⟩ := h
  have hlen : l.length - (l.length - min m s.history_count) = min m s.history_count := by
    omega
  by_cases h0 : s.history_count = 0
  · have hm0 : min m s.history_count = 0 := by omega
    rw [hm0, lastN_zero]
    simp [http_get_history, h0]
  · simp only [http_get_history, GLUCOSE_HISTORY_SIZE, if_neg h0]
    apply list_ext_getD zeroEntry
    · simp only [List.length_map, List.length_range, lastN_length]
      omega
    · intro i hi
      simp only [List.length_map, List.length_range] at hi
      have hgetmap : ∀ (f : Nat → GlucoseHistoryEntry),
          ((List.range (min m s.history_count)).map f).getD i zeroEntry = f i := by
        intro f
        simp [List.getD_eq_getElem?_getD, List.getElem?_range, hi]
      rw [hgetmap]
      rcases Nat.lt_or_ge s.history_count 48 with h48 | h48
      · -- not yet full: start = 0, cells laid out from index 0
        have hLc : s.history_count = l.length := by omega
        have hwL : s.history_write_idx = l.length := by omega
        rw [if_pos h48]
        have hidx : (0 + (s.history_count - min m s.history_count) + i) % 48 =
            (s.history_write_idx + (48 - s.history_count) +
              (s.history_count - min m s.history_count + i)) % 48 := by
          rw [hLc, hwL]
          omega
        have hold := hb (s.history_count - min m s.history_count + i) (by omega)
        rw [hidx, hold]
        rw [hLc, lastN_all]
        simp only [lastN, getD_drop']
      · -- full: start = write index, cells in ring order
        have hc48 : s.history_count = 48 := by omega
        rw [if_neg (by omega)]
        have hidx : (s.history_write_idx + (s.history_count - min m s.history_count) + i) % 48 =
            (s.history_write_idx + (48 - s.history_count) +
              (s.history_count - min m s.history_count + i)) % 48 := by
          omega
        have hold := hb (s.history_count - min m s.history_count + i) (by omega)
        rw [hidx, hold]
        simp only [lastN, getD_drop']
        congr 1
        omega

/-- C5: starting from boot, after any reading sequence the history
count is `min |vs| 48` (never above the fixed capacity 48);
`http_get_history(max)` returns exactly the last `min max (min |vs|
48)` chronological entries, oldest-first; and after 49 insertions the
returned full window is the chronological history minus its first
entry — the first-inserted entry is gone and the newest is present. -/
theorem history_ring_buffer (vs : List (Int × Nat)) (m : Nat)
    (v0 : Int × Nat) (rest : List (Int × Nat)) (hrest : rest.length = 48) :
    (recordAll vs httpInit).history_count = min vs.length 48 ∧
    http_get_history (recordAll vs httpInit) m =
      lastN (min m (min vs.length 48)) (absHist vs) ∧
    http_get_history (recordAll (v0 :: rest) httpInit) 48 =
      (absHist (v0 :: rest)).drop 1 := by
  have hmaster : ∀ ws : List (Int × Nat), HistInv (recordAll ws httpInit) (absHist ws) := by
    intro ws
    have := HistInv_recordAll ws httpInit [] HistInv_init
    simpa [absHist, httpInit] using this
  have hlen : ∀ ws : List (Int × Nat), (absHist ws).length = ws.length := by
    intro ws
    exact absHistFrom_length false 0 ws
  refine ⟨?_, ?_, ?_⟩
  · rw [(hmaster vs).1, hlen vs]
  · rw [http_get_history_of_inv _ _ (hmaster vs) m, (hmaster vs).1, hlen vs]
  · rw [http_get_history_of_inv _ _ (hmaster (v0 :: rest)) 48, (hmaster (v0 :: rest)).1,
      hlen (v0 :: rest)]
    have h49 : (v0 :: rest).length = 49 := by simp [hrest]
    rw [h49]
    simp only [lastN, hlen (v0 :: rest), h49]
    rfl

/-- C5 witness: a concrete 49-reading sequence; the theorem's
hypothesis `rest.length = 48` discharged at `List.replicate`. -/
theorem history_ring_buffer_witness :
    (List.replicate 48 ((100 : Int), (0 : Nat))).length = 48 ∧
    http_get_history (recordAll (((1 : Int), (5 : Nat)) ::
        List.replicate 48 ((100 : Int), (0 : Nat))) httpInit) 48 =
      (absHist (((1 : Int), (5 : Nat)) :: List.replicate 48 ((100 : Int), (0 : Nat)))).drop 1 :=
  ⟨by simp,
   (history_ring_buffer [] 0 ((1 : Int), (5 : Nat))
      (List.replicate 48 ((100 : Int), (0 : Nat))) (by simp)).2.2⟩

/-- C9 witness: pushing into a full pool of three active notifications
evicts slot 0 and stores the new one in the last slot. -/
theorem notify_pool_bounded_fifo_witness :
    let pfull : NotifyPool :=
      ⟨mkNotification 0 "A" 1 false, mkNotification 10 "B" 1 false,
       mkNotification 20 "C" 1 false⟩
    (pfull.n0.active = true ∧ pfull.n1.active = true ∧ pfull.n2.active = true) ∧
    notify_push 30 "D" 1 false pfull =
      ⟨pfull.n1, pfull.n2, mkNotification 30 "D" 1 false⟩ :=
  ⟨⟨rfl, rfl, rfl⟩,
   notify_pool_bounded_fifo.2.1 30 "D" 1 false
     ⟨mkNotification 0 "A" 1 false, mkNotification 10 "B" 1 false,
      mkNotification 20 "C" 1 false⟩ rfl rfl rfl⟩

/-! ## C7: the auto-cycle never fires early -/

theorem chron_mono (a b : Nat) (evs : List NavEv) (h : a ≤ b)
    (hc : chron b evs) : chron a evs := by
  cases evs with
  | nil => trivial
  | cons e rest => exact ⟨Nat.le_trans h hc.1, hc.2⟩

theorem nav_after_rebuild_last_cycle (now : Nat) (f : ToggleFlags) (s : NavState) :
    (nav_after_rebuild now f s).last_cycle_ms = s.last_cycle_ms := by
  simp only [nav_after_rebuild, engine_rebuild_toggle_order]
  split_ifs <;> rfl

theorem auto_cycle_step_facts (now : Nat) (en : Bool) (sec : Nat)
    (s : NavState) (hle : s.last_cycle_ms ≤ now) :
    s.last_cycle_ms ≤ (auto_cycle_step now en sec s).1.last_cycle_ms ∧
    (auto_cycle_step now en sec s).1.last_cycle_ms ≤ now ∧
    ((auto_cycle_step now en sec s).2 = true →
      (auto_cycle_step now en sec s).1.last_cycle_ms = now ∧
      ∀ t : Nat, t ≤ s.last_cycle_ms → t + sec * 1000 ≤ now) := by
  simp only [auto_cycle_step]
  split_ifs <;> dsimp only <;>
    refine ⟨by omega, by omega, ?_⟩ <;>
      intro hfired <;>
        first
          | (refine ⟨rfl, ?_⟩
             intro t ht
             omega)
          | simp at hfired

theorem engine_loop_nav_facts (n : Nat) (f : ToggleFlags) (en : Bool) (sec : Nat)
    (s : NavState) (hle : s.last_cycle_ms ≤ n) :
    s.last_cycle_ms ≤ (engine_loop_nav n f en sec s).1.last_cycle_ms ∧
    (engine_loop_nav n f en sec s).1.last_cycle_ms ≤ n ∧
    ((engine_loop_nav n f en sec s).2 = true →
      (engine_loop_nav n f en sec s).1.last_cycle_ms = n ∧
      ∀ t : Nat, t ≤ s.last_cycle_ms → t + sec * 1000 ≤ n) := by
  simp only [engine_loop_nav]
  split_ifs with h1
  · exact ⟨Nat.le_refl _, hle, fun h => absurd h (by simp)⟩
  · have hpres : (nav_after_rebuild n f { s with last_render_ms := n }).last_cycle_ms =
        s.last_cycle_ms :=
      nav_after_rebuild_last_cycle n f { s with last_render_ms := n }
    have hfacts := auto_cycle_step_facts n en sec
      (nav_after_rebuild n f { s with last_render_ms := n }) (by rw [hpres]; exact hle)
    rw [hpres] at hfacts
    exact hfacts

theorem noEarlyFire_of_chron (evs : List NavEv) (s : NavState) (navT : Option Nat)
    (hchron : chron s.last_cycle_ms evs)
    (hnav : ∀ t ∈ navT, t ≤ s.last_cycle_ms) :
    noEarlyFire s navT evs := by
  induction evs generalizing s navT with
  | nil => trivial
  | cons e rest ih =>
    obtain ⟨hle, hrest⟩ := hchron
    cases e with
    | fwd n =>
      simp only [NavEv.time] at hrest
      simp only [noEarlyFire, navStep, NavEv.isManual, NavEv.time]
      rw [if_pos (show (false = true ∨ True : Prop) from Or.inr trivial)]
      refine ⟨trivial, ?_⟩
      have hlc : (engine_toggle_mode n s).last_cycle_ms = n := rfl
      apply ih
      · rw [hlc]
        exact hrest
      · intro t ht
        simp only [Option.mem_def, Option.some.injEq] at ht
        rw [hlc]
        omega
    | prev n =>
      simp only [NavEv.time] at hrest
      simp only [noEarlyFire, navStep, NavEv.isManual, NavEv.time]
      rw [if_pos (show (false = true ∨ True : Prop) from Or.inr trivial)]
      refine ⟨trivial, ?_⟩
      have hlc : (engine_toggle_mode_prev n s).last_cycle_ms = n := rfl
      apply ih
      · rw [hlc]
        exact hrest
      · intro t ht
        simp only [Option.mem_def, Option.some.injEq] at ht
        rw [hlc]
        omega
    | tick n f en sec =>
      simp only [NavEv.time] at hle hrest
      obtain ⟨hmono, hub, hfire⟩ := engine_loop_nav_facts n f en sec s hle
      simp only [noEarlyFire, navStep, NavEv.isManual, NavEv.time]
      by_cases hf : (engine_loop_nav n f en sec s).2 = true
      · refine ⟨?_, ?_⟩
        · intro _ t ht
          exact (hfire hf).2 t (hnav t ht)
        · rw [if_pos (Or.inl hf)]
          apply ih
          · rw [(hfire hf).1]
            exact hrest
          · intro t ht
            simp only [Option.mem_def, Option.some.injEq] at ht
            rw [(hfire hf).1]
            omega
      · refine ⟨fun hff => absurd hff hf, ?_⟩
        rw [if_neg (by simp [hf])]
        apply ih
        · exact chron_mono _ _ _ hub hrest
        · intro t ht
          exact Nat.le_trans (hnav t ht) hmono

/-- C7: in every navigation trace with nondecreasing event times,
whenever an `engine_loop` tick fires the auto-cycle advance, the
interval configured at that tick has fully elapsed since every earlier
navigation event — manual toggle (forward or backward) or earlier
automatic advance; and every manual toggle resets the auto-cycle timer
to its own time. -/
theorem auto_cycle_never_early (evs : List NavEv) (s : NavState)
    (hchron : chron s.last_cycle_ms evs) :
    noEarlyFire s none evs ∧
    (∀ (s' : NavState) (n : Nat), (navStep s' (NavEv.fwd n)).1.last_cycle_ms = n) ∧
    (∀ (s' : NavState) (n : Nat), (navStep s' (NavEv.prev n)).1.last_cycle_ms = n) := by
  refine ⟨noEarlyFire_of_chron evs s none hchron (by simp), ?_, ?_⟩ <;>
    · intro s' n
      rfl

/-- C7 witness: a manual toggle at t = 1000 followed by engine_loop
ticks at t = 1100 and t = 11000 with a 10 s interval. -/
theorem auto_cycle_never_early_witness :
    chron toggleSyncedStart.last_cycle_ms
      [NavEv.fwd 1000,
       NavEv.tick 1100 ⟨false, false, false, false, false, false⟩ true 10,
       NavEv.tick 11000 ⟨false, false, false, false, false, false⟩ true 10] ∧
    noEarlyFire toggleSyncedStart none
      [NavEv.fwd 1000,
       NavEv.tick 1100 ⟨false, false, false, false, false, false⟩ true 10,
       NavEv.tick 11000 ⟨false, false, false, false, false, false⟩ true 10] :=
  ⟨by simp [chron, NavEv.time, toggleSyncedStart],
   (auto_cycle_never_early _ toggleSyncedStart
      (by simp [chron, NavEv.time, toggleSyncedStart])).1⟩

/-! ## C8: buzzer_beep(3, f, d) produces exactly three timed cycles -/

/-- State after ticks at times `a+1, …, a+j` from state `s`. -/
def loopFromTo (a : Nat) : Nat → BuzzerState → BuzzerState
  | 0, s => s
  | j + 1, s => buzzer_loop (a + j + 1) (loopFromTo a j s)

/-- The sequencer state during the `k`-th beep (`k = 0, 1, 2`),
which starts at time `k * (d + 150)`. -/
def onState (freq : Int) (d k : Nat) : BuzzerState :=
  { initDone := true, beeps_remaining := ((3 - k : Nat) : Int), beep_freq := freq,
    beep_duration_ms := (d : Int), beep_start_ms := k * (d + 150),
    beep_on := true, duty := 128 }

/-- The sequencer state in the gap after the `k`-th beep, which starts
at time `k * (d + 150) + d`. -/
def offState (freq : Int) (d k : Nat) : BuzzerState :=
  { initDone := true, beeps_remaining := ((2 - k : Nat) : Int), beep_freq := freq,
    beep_duration_ms := (d : Int), beep_start_ms := k * (d + 150) + d,
    beep_on := false, duty := 0 }

theorem durU_coe (d : Nat) (h : d < 4294967296) : durU (d : Int) = d := by
  simp only [durU]
  omega

theorem loopFromTo_comp (a j1 j2 : Nat) (s : BuzzerState) :
    loopFromTo a (j1 + j2) s = loopFromTo (a + j1) j2 (loopFromTo a j1 s) := by
  induction j2 with
  | zero => rfl
  | succ j ih =>
    have h1 : j1 + (j + 1) = (j1 + j) + 1 := by omega
    rw [h1]
    simp only [loopFromTo]
    rw [ih]
    have h2 : a + (j1 + j) + 1 = a + j1 + j + 1 := by omega
    rw [h2]

theorem buzzRunMs_eq_loopFromTo (freq : Int) (d t : Nat) :
    buzzRunMs freq d t = loopFromTo 0 t (buzzer_beep 0 3 freq (d : Int) buzzerInit) := by
  induction t with
  | zero => rfl
  | succ t ih =>
    simp only [buzzRunMs, loopFromTo, ih]
    have : (0 : Nat) + t + 1 = t + 1 := by omega
    rw [this]

theorem loopFromTo_nonpos (a j : Nat) (s : BuzzerState)
    (h : s.beeps_remaining ≤ 0) : loopFromTo a j s = s := by
  induction j with
  | zero => rfl
  | succ j ih =>
    simp only [loopFromTo, ih]
    exact buzzer_loop_noop_nonpos _ s h

theorem on_hold (freq : Int) (d k : Nat) (hk : k ≤ 2) (hd : 1 ≤ d)
    (h32 : d < 4294967296) :
    ∀ j, j < d → loopFromTo (k * (d + 150)) j (onState freq d k) = onState freq d k := by
  set a := k * (d + 150) with ha
  intro j
  induction j with
  | zero => intro _; rfl
  | succ j ih =>
    intro hj
    have hstep : loopFromTo a (j + 1) (onState freq d k) =
        buzzer_loop (a + j + 1) (loopFromTo a j (onState freq d k)) := rfl
    rw [hstep, ih (by omega)]
    simp only [buzzer_loop, onState, ← ha]
    rw [durU_coe d h32]
    rw [if_neg (by simp; omega), if_pos (by trivial), if_neg (by omega)]

theorem on_tick_off (freq : Int) (d k : Nat) (hk : k ≤ 2) (h32 : d < 4294967296) :
    buzzer_loop (k * (d + 150) + d) (onState freq d k) = offState freq d k := by
  set a := k * (d + 150) with ha
  simp only [buzzer_loop, onState, offState, ← ha]
  rw [durU_coe d h32]
  rw [if_neg (by simp; omega), if_pos (by trivial), if_pos (by omega)]
  rw [show (((3 - k : Nat) : Int) - 1 : Int) = ((2 - k : Nat) : Int) from by omega]

theorem gap_hold (freq : Int) (d k : Nat) (hk : k ≤ 1) :
    ∀ j, j ≤ 149 → loopFromTo (k * (d + 150) + d) j (offState freq d k) = offState freq d k := by
  set a := k * (d + 150) with ha
  intro j
  induction j with
  | zero => intro _; rfl
  | succ j ih =>
    intro hj
    have hstep : loopFromTo (a + d) (j + 1) (offState freq d k) =
        buzzer_loop (a + d + j + 1) (loopFromTo (a + d) j (offState freq d k)) := rfl
    rw [hstep, ih (by omega)]
    simp only [buzzer_loop, offState, BEEP_GAP_MS, ← ha]
    rw [if_neg (by simp; omega), if_neg (by simp), if_neg (by
      rintro ⟨-, hgap⟩
      omega)]

theorem gap_tick_on (freq : Int) (d k : Nat) (hk : k ≤ 1) :
    buzzer_loop (k * (d + 150) + d + 150) (offState freq d k) = onState freq d (k + 1) := by
  set a := k * (d + 150) with ha
  simp only [buzzer_loop, offState, onState, BEEP_GAP_MS, ← ha]
  rw [if_neg (by simp; omega), if_neg (by simp),
    if_pos (⟨by omega, by omega⟩ : (0 : Int) < ((2 - k : Nat) : Int) ∧
      150 ≤ a + d + 150 - (a + d))]
  rw [show ((2 - k : Nat) : Int) = ((3 - (k + 1) : Nat) : Int) from by omega]
  rw [show ((k + 1) * (d + 150) : Nat) = a + d + 150 from by rw [Nat.succ_mul, ← ha]; omega]

theorem loopFromTo_one (a : Nat) (s : BuzzerState) :
    loopFromTo a 1 s = buzzer_loop (a + 1) s := rfl

theorem off_phase_to_on (freq : Int) (d k : Nat) (hk : k ≤ 1) :
    loopFromTo (k * (d + 150) + d) 150 (offState freq d k) = onState freq d (k + 1) := by
  have h1 : loopFromTo (k * (d + 150) + d) (149 + 1) (offState freq d k) =
      loopFromTo (k * (d + 150) + d + 149) 1
        (loopFromTo (k * (d + 150) + d) 149 (offState freq d k)) :=
    loopFromTo_comp (k * (d + 150) + d) 149 1 _
  have h150 : (150 : Nat) = 149 + 1 := rfl
  calc loopFromTo (k * (d + 150) + d) 150 (offState freq d k)
      = loopFromTo (k * (d + 150) + d + 149) 1
          (loopFromTo (k * (d + 150) + d) 149 (offState freq d k)) := h1
    _ = buzzer_loop (k * (d + 150) + d + 149 + 1)
          (loopFromTo (k * (d + 150) + d) 149 (offState freq d k)) :=
        loopFromTo_one _ _
    _ = buzzer_loop (k * (d + 150) + d + 149 + 1) (offState freq d k) := by
        rw [gap_hold freq d k hk 149 (Nat.le_refl _)]
    _ = onState freq d (k + 1) := by
        rw [show k * (d + 150) + d + 149 + 1 = k * (d + 150) + d + 150 from by omega]
        exact gap_tick_on freq d k hk

theorem on_phase_to_off (freq : Int) (d k : Nat) (hk : k ≤ 2) (hd : 1 ≤ d)
    (h32 : d < 4294967296) :
    loopFromTo (k * (d + 150)) d (onState freq d k) = offState freq d k := by
  obtain ⟨e, rfl⟩ : ∃ e, d = e + 1 := ⟨d - 1, by omega⟩
  have hstep : loopFromTo (k * (e + 1 + 150)) (e + 1) (onState freq (e + 1) k) =
      buzzer_loop (k * (e + 1 + 150) + e + 1)
        (loopFromTo (k * (e + 1 + 150)) e (onState freq (e + 1) k)) := rfl
  rw [hstep, on_hold freq (e + 1) k hk hd h32 e (by omega)]
  rw [show k * (e + 1 + 150) + e + 1 = k * (e + 1 + 150) + (e + 1) from by omega]
  exact on_tick_off freq (e + 1) k hk h32

theorem run_at_on_start (freq : Int) (d : Nat) (hd : 1 ≤ d) (h32 : d < 4294967296) :
    ∀ k, k ≤ 2 → buzzRunMs freq d (k * (d + 150)) = onState freq d k := by
  intro k
  induction k with
  | zero =>
    intro _
    rw [buzzRunMs_eq_loopFromTo]
    simp only [Nat.zero_mul, loopFromTo]
    simp [buzzer_beep, buzzerInit, onState]
  | succ k ih =>
    intro hk
    rw [buzzRunMs_eq_loopFromTo, Nat.succ_mul]
    rw [show (k * (d + 150) + (d + 150) : Nat) = k * (d + 150) + (d + (149 + 1)) from by omega]
    rw [loopFromTo_comp 0 (k * (d + 150)) (d + (149 + 1)) _, ← buzzRunMs_eq_loopFromTo,
      ih (by omega), Nat.zero_add]
    rw [loopFromTo_comp (k * (d + 150)) d (149 + 1) _]
    rw [on_phase_to_off freq d k (by omega) hd h32]
    exact off_phase_to_on freq d k (by omega)

/-- The full state characterization of the canonical run. -/
theorem buzzRun_phases (freq : Int) (d : Nat) (hd : 1 ≤ d) (h32 : d < 4294967296) :
    (∀ k r, k ≤ 2 → r < d → buzzRunMs freq d (k * (d + 150) + r) = onState freq d k) ∧
    (∀ k r, k ≤ 1 → d ≤ r → r < d + 150 →
      buzzRunMs freq d (k * (d + 150) + r) = offState freq d k) ∧
    (∀ t, 3 * d + 300 ≤ t → buzzRunMs freq d t = offState freq d 2) := by
  have hoffend : ∀ k, k ≤ 2 → buzzRunMs freq d (k * (d + 150) + d) = offState freq d k := by
    intro k hk
    rw [buzzRunMs_eq_loopFromTo, loopFromTo_comp 0 (k * (d + 150)) d _,
      ← buzzRunMs_eq_loopFromTo, run_at_on_start freq d hd h32 k hk, Nat.zero_add]
    exact on_phase_to_off freq d k hk hd h32
  have hon : ∀ k r, k ≤ 2 → r < d →
      buzzRunMs freq d (k * (d + 150) + r) = onState freq d k := by
    intro k r hk hr
    rw [buzzRunMs_eq_loopFromTo, loopFromTo_comp 0 (k * (d + 150)) r _,
      ← buzzRunMs_eq_loopFromTo, run_at_on_start freq d hd h32 k hk, Nat.zero_add]
    exact on_hold freq d k hk hd h32 r hr
  have hoff : ∀ k r, k ≤ 1 → d ≤ r → r < d + 150 →
      buzzRunMs freq d (k * (d + 150) + r) = offState freq d k := by
    intro k r hk hdr hr
    rw [show (k * (d + 150) + r : Nat) = (k * (d + 150) + d) + (r - d) from by omega]
    rw [buzzRunMs_eq_loopFromTo, loopFromTo_comp 0 (k * (d + 150) + d) (r - d) _,
      ← buzzRunMs_eq_loopFromTo, hoffend k (by omega), Nat.zero_add]
    exact gap_hold freq d k hk (r - d) (by omega)
  have habs : ∀ t, 3 * d + 300 ≤ t → buzzRunMs freq d t = offState freq d 2 := by
    intro t ht
    have hend : buzzRunMs freq d (2 * (d + 150) + d) = offState freq d 2 :=
      hoffend 2 (by omega)
    rw [show t = (2 * (d + 150) + d) + (t - (3 * d + 300)) from by omega]
    rw [buzzRunMs_eq_loopFromTo, loopFromTo_comp 0 (2 * (d + 150) + d) (t - (3 * d + 300)) _,
      ← buzzRunMs_eq_loopFromTo, hend, Nat.zero_add]
    exact loopFromTo_nonpos _ _ _ (by simp [offState])
  exact ⟨hon, hoff, habs⟩

theorem buzz_phase_decomp (d t : Nat) (h : t < 3 * d + 300) :
    ∃ k r, ((k ≤ 2 ∧ r < d) ∨ (k ≤ 1 ∧ d ≤ r ∧ r < d + 150)) ∧
      t = k * (d + 150) + r := by
  by_cases c1 : t < d + 150
  · by_cases c0 : t < d
    · exact ⟨0, t, Or.inl (by omega), by omega⟩
    · exact ⟨0, t, Or.inr (by omega), by omega⟩
  · by_cases c2 : t < 2 * (d + 150)
    · by_cases c2d : t < d + 150 + d
      · exact ⟨1, t - (d + 150), Or.inl (by omega), by omega⟩
      · exact ⟨1, t - (d + 150), Or.inr (by omega), by omega⟩
    · exact ⟨2, t - 2 * (d + 150), Or.inl (by omega), by omega⟩

/-- C8: after `buzzer_beep(3, freq, d)` at time 0 with loop ticks every
millisecond, the output (duty 128) is high exactly on the three
intervals `[k(d+150), k(d+150)+d)` for `k = 0, 1, 2` — three cycles of
duration `d` separated by the fixed 150 ms gap, driven purely by
per-tick timestamp comparisons — `buzzer_is_active` stays true exactly
until all three beeps complete at `3d + 300`, and the output level is
always one of 0 and 128. -/
theorem buzzer_beep3_exact_cycles (freq : Int) (d t : Nat)
    (hd : 1 ≤ d) (h32 : d < 4294967296) :
    (buzzer_is_active (buzzRunMs freq d t) = true ↔ t < 3 * d + 300) ∧
    ((buzzRunMs freq d t).duty = 128 ↔
      ∃ k, k < 3 ∧ k * (d + 150) ≤ t ∧ t < k * (d + 150) + d) ∧
    ((buzzRunMs freq d t).duty = 0 ∨ (buzzRunMs freq d t).duty = 128) := by
  obtain ⟨hon, hoff, habs⟩ := buzzRun_phases freq d hd h32
  by_cases hend : 3 * d + 300 ≤ t
  · rw [habs t hend]
    refine ⟨?_, ?_, Or.inl rfl⟩
    · simp [buzzer_is_active, offState]
      omega
    · simp only [offState]
      constructor
      · intro h
        exact absurd h (by simp)
      · rintro ⟨k, hk, hk1, hk2⟩
        exfalso
        interval_cases k <;> omega
  · obtain ⟨k, r, hcase, ht⟩ := buzz_phase_decomp d t (by omega)
    rcases hcase with ⟨hk, hr⟩ | ⟨hk, hdr, hr⟩
    · rw [ht, hon k r hk hr]
      refine ⟨?_, ?_, Or.inr rfl⟩
      · simp [buzzer_is_active, onState]
        omega
      · simp only [onState]
        constructor
        · intro _
          exact ⟨k, by omega, by omega, by omega⟩
        · intro _
          trivial
    · rw [ht, hoff k r hk hdr hr]
      refine ⟨?_, ?_, Or.inl rfl⟩
      · simp [buzzer_is_active, offState]
        omega
      · simp only [offState]
        constructor
        · intro h
          exact absurd h (by simp)
        · rintro ⟨k', hk', hk1, hk2⟩
          exfalso
          interval_cases k <;> interval_cases k' <;> omega

/-- C8 witness: the default parameters `freq = 2000`, `d = 200` at
`t = 899` (still active) — three 200 ms beeps with 150 ms gaps end at
`3·200 + 300 = 900`. -/
theorem buzzer_beep3_exact_cycles_witness :
    ((1 : Nat) ≤ 200 ∧ (200 : Nat) < 4294967296) ∧
    (buzzer_is_active (buzzRunMs 2000 200 899) = true ↔ (899 : Nat) < 3 * 200 + 300) :=
  ⟨⟨by decide, by decide⟩,
   (buzzer_beep3_exact_cycles 2000 200 899 (by decide) (by decide)).1⟩

end SugarClock
